import Mathlib

/-!
Shallow embedding of the authoritative Pong simulation core of
`backend/src/chans/chans.service.ts` (classes `GameObject`, `Paddle`, `Ball`,
`Player`, `Game`, `GameService`) and of the websocket gateway handler
`GameWebsocketGateway.queue`.

Modelling conventions:
* JavaScript floating-point numbers are modelled as exact rationals (`ℚ`).
  `Math.sqrt` is modelled by `Rat.sqrt`, which agrees with the real square
  root exactly on perfect rational squares; every concrete input evaluated in
  this development has a perfect-square radicand.
* The numeric constants `GameDim`, `GameSpeed` and `GameTimings` are imported
  by the source from the `contract` package, whose constants file is not part
  of the sources under study; they are kept as parameters (a `GameDim`
  structure and explicit speed arguments), so every theorem quantifies over
  them or instantiates them with concrete test values.
* `Math.random`-driven direction generation (`Ball.getRandomDirection`) is
  modelled by an oracle stream `rng : ℕ → Position` in the game state: each
  `reset()` consumes the head of the stream.  The source generator only emits
  unit vectors `(cos h, sin h)` whose x-component has absolute value strictly
  between 0.2 and 0.9; theorems that need this state it as a hypothesis on
  the stream.
* Mutation of the single `Game`/`GameService` object graph becomes explicit
  state passing over `GameState` / `ServiceState`.
* Socket broadcasts become an `events` list; `setTimeout`-driven transitions
  and the timers themselves are outside the claims and are not modelled.
* `exit()` (whole-process termination) in `Ball.move` is modelled by the
  distinguished results `StepRes.fatal` / `MoveRes.fatal`.
-/

/-- Court coordinates, source `interface Position {x, y}`. -/
structure Position where
  x : ℚ
  y : ℚ
deriving DecidableEq

/-- Axis-aligned rectangle, source `interface Rectangle`. -/
structure Rectangle where
  topY : ℚ
  botY : ℚ
  leftX : ℚ
  rightX : ℚ
deriving DecidableEq

/-- Game dimension constants, imported by the source from the `contract`
package (not among the sources); kept as parameters. -/
structure GameDim where
  courtWidth : ℚ
  courtHeight : ℚ
  paddleWidth : ℚ
  paddleHeight : ℚ
  ballSideLength : ℚ
deriving DecidableEq

/-- Source `Ball.offset = GameDim.ballSideLength / 2`. -/
def ballOffset (d : GameDim) : ℚ := d.ballSideLength / 2

/-- Source `Paddle.xOffset = GameDim.paddle.width / 2`. -/
def paddleXOffset (d : GameDim) : ℚ := d.paddleWidth / 2

/-- Source `Paddle.yOffset = GameDim.paddle.height / 2`. -/
def paddleYOffset (d : GameDim) : ℚ := d.paddleHeight / 2

/-- Starting position of the ball, from the `Game` field initializer. -/
def ballStartPos (d : GameDim) : Position :=
  ⟨d.courtWidth / 2 - ballOffset d, d.courtHeight / 2 - ballOffset d⟩

/-- Starting position of player A's (left) paddle, from the `Game` constructor. -/
def paddleAStart (d : GameDim) : Position :=
  ⟨paddleXOffset d, d.courtHeight / 2⟩

/-- Starting position of player B's (right) paddle, from the `Game` constructor. -/
def paddleBStart (d : GameDim) : Position :=
  ⟨d.courtWidth - paddleXOffset d, d.courtHeight / 2⟩

/-- Source `GameObject.getRectFromOffsetAndPos`. -/
def getRectFromOffsetAndPos (position : Position) (xOffset yOffset : ℚ) : Rectangle :=
  { topY := position.y - yOffset
    botY := position.y + yOffset
    leftX := position.x - xOffset
    rightX := position.x + xOffset }

/-- Source `GameObject.doesBallCollideWithPaddle`. -/
def doesBallCollideWithPaddle (ball paddle : Rectangle) : Prop :=
  ball.leftX ≤ paddle.rightX ∧ paddle.leftX ≤ ball.rightX ∧
  ball.topY ≤ paddle.botY ∧ paddle.topY ≤ ball.botY

instance (b p : Rectangle) : Decidable (doesBallCollideWithPaddle b p) := by
  unfold doesBallCollideWithPaddle; infer_instance

/-- Source `GameObject.doesBallCollideWithTopBotWalls`. -/
def doesBallCollideWithTopBotWalls (d : GameDim) (ball : Rectangle) : Prop :=
  ball.topY ≤ 0 ∨ d.courtHeight ≤ ball.botY

instance (d : GameDim) (b : Rectangle) : Decidable (doesBallCollideWithTopBotWalls d b) := by
  unfold doesBallCollideWithTopBotWalls; infer_instance

/-- Source `Ball.doesBallCollideWithLeftWall`. -/
def doesBallCollideWithLeftWall (ball : Rectangle) : Prop := ball.leftX ≤ 0

instance (b : Rectangle) : Decidable (doesBallCollideWithLeftWall b) := by
  unfold doesBallCollideWithLeftWall; infer_instance

/-- Source `Ball.doesBallCollideWithRightWall`. -/
def doesBallCollideWithRightWall (d : GameDim) (ball : Rectangle) : Prop :=
  d.courtWidth ≤ ball.rightX

instance (d : GameDim) (b : Rectangle) : Decidable (doesBallCollideWithRightWall d b) := by
  unfold doesBallCollideWithRightWall; infer_instance

/-- Source `Ball.doesBallCollideWithLeftRightWalls`. -/
def doesBallCollideWithLeftRightWalls (d : GameDim) (ball : Rectangle) : Prop :=
  doesBallCollideWithLeftWall ball ∨ doesBallCollideWithRightWall d ball

instance (d : GameDim) (b : Rectangle) : Decidable (doesBallCollideWithLeftRightWalls d b) := by
  unfold doesBallCollideWithLeftRightWalls; infer_instance

/-- Source `GameMovement` values. -/
inductive GameMovement where
  | UP
  | DOWN
  | NONE
deriving DecidableEq

/-- Source `GameStatus` values. -/
inductive GameStatus where
  | INIT
  | PLAY
  | PAUSE
  | BREAK
  | END
deriving DecidableEq

/-- The two players of a `Game`: `playerA` (left paddle) and `playerB`. -/
inductive Side where
  | A
  | B
deriving DecidableEq

/-- Broadcasts emitted by the `Game.status` setter and the `game.end`
internal event, with the payload fields the claims are about. -/
inductive GEvent where
  | statusInit
  | statusPlay (scoreA scoreB : ℕ)
  | statusPause
  | statusBreak (scoreA scoreB : ℕ)
  | statusEnd (winner : Side) (scoreA scoreB : ℕ)
  | gameEndInternal
deriving DecidableEq

/-- The mutable state of one `Game` aggregate: ball fields, the two paddles'
fields, the two players' scores, the status machinery, the emitted
broadcasts and the random-direction oracle stream. -/
structure GameState where
  ballPos : Position
  ballDir : Position
  passedPaddleLine : Bool
  paddleAPos : Position
  paddleBPos : Position
  movA : GameMovement
  movB : GameMovement
  scoreA : ℕ
  scoreB : ℕ
  status : GameStatus
  lastUpdateTime : Option ℚ
  events : List GEvent
  rng : ℕ → Position

/-- Position of the given side's paddle. -/
def paddlePos (side : Side) (s : GameState) : Position :=
  match side with
  | Side.A => s.paddleAPos
  | Side.B => s.paddleBPos

/-- Movement intent of the given side's paddle. -/
def paddleMovement (side : Side) (s : GameState) : GameMovement :=
  match side with
  | Side.A => s.movA
  | Side.B => s.movB

/-- Write the given side's paddle position. -/
def setPaddlePos (side : Side) (p : Position) (s : GameState) : GameState :=
  match side with
  | Side.A => { s with paddleAPos := p }
  | Side.B => { s with paddleBPos := p }

/-- Score of the given side's player. -/
def sideScore (side : Side) (s : GameState) : ℕ :=
  match side with
  | Side.A => s.scoreA
  | Side.B => s.scoreB

/-- Source `Game.maxScore = 10`. -/
def maxScore : ℕ := 10

/-- Source `Paddle.getRect`. -/
def Paddle.getRect (d : GameDim) (p : Position) : Rectangle :=
  getRectFromOffsetAndPos p (paddleXOffset d) (paddleYOffset d)

/-- Source `Ball.getRect`. -/
def Ball.getRect (d : GameDim) (p : Position) : Rectangle :=
  getRectFromOffsetAndPos p (ballOffset d) (ballOffset d)

/-- Winner computed by the END broadcast of the `Game.status` setter:
`playerA.score > playerB.score ? playerA : playerB`. -/
def Game.winner (s : GameState) : Side :=
  if s.scoreB < s.scoreA then Side.A else Side.B

/-- Source `Game.status` setter: emit the status broadcast, null out
`lastUpdateTime`, store the new status.  The `setTimeout`-scheduled
INIT→PLAY and BREAK→PLAY transitions are timers outside this model. -/
def Game.setStatus (newStatus : GameStatus) (s : GameState) : GameState :=
  let ev : GEvent :=
    match newStatus with
    | GameStatus.INIT => GEvent.statusInit
    | GameStatus.PLAY => GEvent.statusPlay s.scoreA s.scoreB
    | GameStatus.PAUSE => GEvent.statusPause
    | GameStatus.BREAK => GEvent.statusBreak s.scoreA s.scoreB
    | GameStatus.END => GEvent.statusEnd (Game.winner s) s.scoreA s.scoreB
  { s with
    events := s.events ++ [ev]
    lastUpdateTime := none
    status := newStatus }

/-- Source `Game.score(player)`: increment the scorer's score, reset all
game objects (`callOnAllGameObjects("reset")`: both paddles to their start
position; the ball to its start position with a fresh random direction and
`passedPaddleLine` cleared), then transition to END (plus the `game.end`
internal event) when the scorer reached `maxScore`, else to BREAK. -/
def Game.score (d : GameDim) (scorer : Side) (s : GameState) : GameState :=
  let s1 :=
    match scorer with
    | Side.A => { s with scoreA := s.scoreA + 1 }
    | Side.B => { s with scoreB := s.scoreB + 1 }
  let s2 := { s1 with
    paddleAPos := paddleAStart d
    paddleBPos := paddleBStart d
    ballPos := ballStartPos d
    ballDir := s1.rng 0
    rng := fun i => s1.rng (i + 1)
    passedPaddleLine := false }
  if maxScore ≤ sideScore scorer s2 then
    let s3 := Game.setStatus GameStatus.END s2
    { s3 with events := s3.events ++ [GEvent.gameEndInternal] }
  else
    Game.setStatus GameStatus.BREAK s2

/-- Source private `Ball.position` setter: store the new position; if the
ball's rectangle now reaches a side wall, credit the opposing player via
`Game.score` (left wall scores for player B) and stop; otherwise raise
`passedPaddleLine` once the rectangle crosses either paddle's depth plane. -/
def Ball.setPosition (d : GameDim) (newPosition : Position) (s : GameState) : GameState :=
  let s1 := { s with ballPos := newPosition }
  let r := Ball.getRect d s1.ballPos
  if doesBallCollideWithLeftRightWalls d r then
    Game.score d (if doesBallCollideWithLeftWall r then Side.B else Side.A) s1
  else if ¬ s1.passedPaddleLine = true ∧
      (d.courtWidth - d.paddleWidth < r.rightX ∨ r.leftX < d.paddleWidth) then
    { s1 with passedPaddleLine := true }
  else
    s1

/-- Source `Ball.getNextPositionWithoutCollision(dist)`. -/
def getNextPositionWithoutCollision (pos dir : Position) (dist : ℚ) : Position :=
  ⟨pos.x + dir.x * dist, pos.y + dir.y * dist⟩

/-- Source `Ball.getIntersectionY(target_y)`: x-coordinate of the point of
the ball's line of travel at height `target_y` (slope `dir.x / dir.y`). -/
def getIntersectionY (pos dir : Position) (targetY : ℚ) : ℚ :=
  pos.x + (targetY - pos.y) * (dir.x / dir.y)

/-- Source `Ball.getIntersectionX(target_x)`: y-coordinate of the point of
the ball's line of travel at abscissa `target_x` (slope `dir.y / dir.x`). -/
def getIntersectionX (pos dir : Position) (targetX : ℚ) : ℚ :=
  pos.y + (targetX - pos.x) * (dir.y / dir.x)

/-- Source `Ball.distanceBetweenPositions(a, b)`, with `Math.sqrt` modelled
by `Rat.sqrt` (exact on the perfect squares this development evaluates). -/
def distanceBetweenPositions (a b : Position) : ℚ :=
  Rat.sqrt ((b.x - a.x) ^ 2 + (b.y - a.y) ^ 2)

/-- Paddle the ball is moving towards, source
`(this.direction.x > 0) ? this.game.playerB.paddle : this.game.playerA.paddle`. -/
def Ball.facingSide (s : GameState) : Side :=
  if 0 < s.ballDir.x then Side.B else Side.A

/-- Source local `xPaddle` of `Ball.move`: the x-coordinate at which the
ball's rectangle would sit flush against the facing paddle's plane. -/
def Ball.xPaddle (d : GameDim) (s : GameState) : ℚ :=
  if 0 < s.ballDir.x then d.courtWidth - d.paddleWidth - ballOffset d
  else d.paddleWidth + ballOffset d

/-- Source local `yWall` of `Ball.move`: the y-coordinate at which the ball's
rectangle touches the wall it is moving towards. -/
def Ball.yWall (d : GameDim) (s : GameState) : ℚ :=
  if 0 < s.ballDir.y then d.courtHeight - ballOffset d else ballOffset d

/-- The initial value of the source's `collideWithPaddles` local: swept
rectangle against both paddles' rectangles. -/
def Ball.baseCollidePaddles (d : GameDim) (nextPosRect : Rectangle) (s : GameState) : Prop :=
  doesBallCollideWithPaddle nextPosRect (Paddle.getRect d s.paddleAPos) ∨
  doesBallCollideWithPaddle nextPosRect (Paddle.getRect d s.paddleBPos)

instance (d : GameDim) (r : Rectangle) (s : GameState) :
    Decidable (Ball.baseCollidePaddles d r s) := by
  unfold Ball.baseCollidePaddles; infer_instance

/-- Final value of the source's `collideWithPaddles` local in `Ball.move`:
the base rectangle test, which the guarded special case (long move reaching a
side wall before the ball has passed the paddle line) may upgrade to true
when the line-of-travel intersection with the facing paddle's plane lies
within the facing paddle's y-span.  The source's imperative flag update is
flattened into a disjunction. -/
def Ball.collideWithPaddles (d : GameDim) (dist : ℚ) (nextPosRect : Rectangle)
    (s : GameState) : Prop :=
  Ball.baseCollidePaddles d nextPosRect s ∨
  (¬ Ball.baseCollidePaddles d nextPosRect s ∧ d.paddleWidth < dist ∧
    doesBallCollideWithLeftRightWalls d nextPosRect ∧ ¬ s.passedPaddleLine = true ∧
    (let intersecY := getIntersectionX s.ballPos s.ballDir (Ball.xPaddle d s)
     let facingRect := Paddle.getRect d (paddlePos (Ball.facingSide s) s)
     facingRect.topY ≤ intersecY + ballOffset d ∧ intersecY - ballOffset d ≤ facingRect.botY))

instance (d : GameDim) (dist : ℚ) (r : Rectangle) (s : GameState) :
    Decidable (Ball.collideWithPaddles d dist r s) := by
  unfold Ball.collideWithPaddles; infer_instance

/-- Result of one body of the recursive source method `Ball.move`: either a
final committed position (`done`), a recursive call with the leftover
distance the source computed (`recurse`), or the `exit()` guard firing
(`fatal`, terminating the whole process). -/
inductive StepRes where
  | done (s : GameState)
  | recurse (s : GameState) (dist : ℚ)
  | fatal (s : GameState)

/-- One body of source `Ball.move(dist)` (lines 1204-1286): compute the
unobstructed next position; detect paddle / top-bottom wall collisions on the
swept rectangle (plus the special paddle-plane check for long moves reaching
a side wall with `passedPaddleLine` false); commit directly when free;
otherwise build the intersection point, reflecting the direction (the y-flip
for a top/bottom wall happens before the paddle branch reads the direction,
exactly as in the source's field mutations), take `remainingDist` as the
distance between the intersection point and the pre-move position, commit via
the `Ball.position` setter, then either hit the `exit()` guard
(`position.x > 1800`) or recurse. -/
def Ball.moveStep (d : GameDim) (dist : ℚ) (s : GameState) : StepRes :=
  let nextPosWithoutColl := getNextPositionWithoutCollision s.ballPos s.ballDir dist
  let nextPosRect := getRectFromOffsetAndPos nextPosWithoutColl (ballOffset d) (ballOffset d)
  if ¬ Ball.collideWithPaddles d dist nextPosRect s ∧
      ¬ doesBallCollideWithTopBotWalls d nextPosRect then
    StepRes.done (Ball.setPosition d nextPosWithoutColl s)
  else
    let facingRect := Paddle.getRect d (paddlePos (Ball.facingSide s) s)
    let ip0 : Position := ⟨Ball.xPaddle d s, Ball.yWall d s⟩
    let pr1 : Position × Position :=
      if doesBallCollideWithTopBotWalls d nextPosRect then
        (⟨getIntersectionY s.ballPos s.ballDir (Ball.yWall d s), Ball.yWall d s⟩,
         ⟨s.ballDir.x, -s.ballDir.y⟩)
      else (ip0, s.ballDir)
    let pr2 : Position × Position :=
      if Ball.collideWithPaddles d dist nextPosRect s then
        if s.passedPaddleLine then
          let yPaddle :=
            if (Ball.getRect d s.ballPos).botY ≤ facingRect.topY then
              facingRect.topY - ballOffset d
            else facingRect.botY + ballOffset d
          (⟨getIntersectionY s.ballPos pr1.2 yPaddle, yPaddle⟩, ⟨pr1.2.x, -pr1.2.y⟩)
        else
          (⟨pr1.1.x, getIntersectionX s.ballPos pr1.2 (Ball.xPaddle d s)⟩,
           ⟨-pr1.2.x, pr1.2.y⟩)
      else pr1
    let remainingDist := distanceBetweenPositions pr2.1 s.ballPos
    let s1 := Ball.setPosition d pr2.1 { s with ballDir := pr2.2 }
    if 1800 < s1.ballPos.x then StepRes.fatal s1
    else StepRes.recurse s1 remainingDist

/-- Overall result of running the recursion of `Ball.move`: the source has no
iteration bound, so the embedding carries explicit fuel; `fuelOut` marks a
run that still wants to recurse after exhausting the given fuel. -/
inductive MoveRes where
  | ok (s : GameState)
  | fatal (s : GameState)
  | fuelOut (s : GameState)

/-- State carried by a `MoveRes`. -/
def MoveRes.state : MoveRes → GameState
  | MoveRes.ok s => s
  | MoveRes.fatal s => s
  | MoveRes.fuelOut s => s

/-- Source `Ball.move(dist)` as a fuelled iteration of `Ball.moveStep`. -/
def Ball.move (d : GameDim) : ℕ → ℚ → GameState → MoveRes
  | 0, _, s => MoveRes.fuelOut s
  | fuel + 1, dist, s =>
    match Ball.moveStep d dist s with
    | StepRes.done s1 => MoveRes.ok s1
    | StepRes.fatal s1 => MoveRes.fatal s1
    | StepRes.recurse s1 rem => Ball.move d fuel rem s1

/-- Source `Ball.update(deltaTime)`: `move((GameSpeed.ball / 1000) * deltaTime)`,
with the ball speed constant as a parameter and explicit fuel. -/
def Ball.update (d : GameDim) (speedBall : ℚ) (fuel : ℕ) (deltaTime : ℚ)
    (s : GameState) : MoveRes :=
  Ball.move d fuel ((speedBall / 1000) * deltaTime) s

/-- Source private `Paddle.position` setter: clamp the incoming position's
y using the paddle's CURRENT rectangle (`this.getRect()`), keep x unchanged,
then, when the ball has passed the paddle line, either reject the move (hold
position) near the court edge on the ball's side, or push the ball flush
against the paddle's new edge when the new rectangle overlaps the ball. -/
def Paddle.setPosition (d : GameDim) (side : Side) (newPosition0 : Position)
    (s : GameState) : GameState :=
  let cur := paddlePos side s
  let curRect := Paddle.getRect d cur
  let newPosition :=
    if curRect.topY < 0 then { newPosition0 with y := paddleYOffset d }
    else if d.courtHeight < curRect.botY then
      { newPosition0 with y := d.courtHeight - paddleYOffset d }
    else if newPosition0.x ≠ cur.x then { newPosition0 with x := cur.x }
    else newPosition0
  if ¬ s.passedPaddleLine = true then setPaddlePos side newPosition s
  else
    let newRect := Paddle.getRect d newPosition
    let isUp := paddleMovement side s = GameMovement.UP
    let isBallUpper := s.ballPos.y < cur.y
    let topPaddleLimit := d.ballSideLength + 3
    let botPaddleLimit := d.courtHeight - d.ballSideLength - 3
    if ((isUp ∧ isBallUpper) ∨ (¬ isUp ∧ ¬ isBallUpper)) ∧
        ((isUp ∧ newRect.topY < topPaddleLimit) ∨
          (¬ isUp ∧ botPaddleLimit < newRect.botY)) then
      s
    else if ¬ doesBallCollideWithPaddle (Ball.getRect d s.ballPos) newRect then
      setPaddlePos side newPosition s
    else
      let newBallY :=
        if isUp then newRect.topY - ballOffset d - 1
        else newRect.botY + ballOffset d + 1
      setPaddlePos side newPosition
        { s with ballPos := { s.ballPos with y := newBallY } }

/-- Source `Paddle.update(deltaTime)`: no-op when movement is NONE, otherwise
move vertically by `(GameSpeed.paddle / 1000) * deltaTime` through the
`Paddle.position` setter (paddle speed constant as a parameter). -/
def Paddle.update (d : GameDim) (speedPaddle : ℚ) (side : Side) (deltaTime : ℚ)
    (s : GameState) : GameState :=
  if paddleMovement side s = GameMovement.NONE then s
  else
    let ySign : ℚ := if paddleMovement side s = GameMovement.UP then -1 else 1
    let cur := paddlePos side s
    Paddle.setPosition d side
      ⟨cur.x, cur.y + ySign * (speedPaddle / 1000) * deltaTime⟩ s

/-- Lookup in a JavaScript `Map` modelled as an insertion-ordered
association list (`Map.get`). -/
def mapGet {α : Type} (k : String) : List (String × α) → Option α
  | [] => none
  | (k1, v1) :: rest => if k1 = k then some v1 else mapGet k rest

/-- Write to a JavaScript `Map` modelled as an insertion-ordered association
list (`Map.set`): replace the value in place if the key exists, else append. -/
def mapSet {α : Type} (k : String) (v : α) : List (String × α) → List (String × α)
  | [] => [(k, v)]
  | (k1, v1) :: rest => if k1 = k then (k, v) :: rest else (k1, v1) :: mapSet k v rest

/-- Source `Game` constructor id:
``this.id = `${playerA.data.intraUserName}${playerB.data.intraUserName}` ``. -/
def Game.id (a b : String) : String := a ++ b

/-- State of `GameService`: the single-slot queue (holding an identity), and
the `games` / `usersToGame` maps.  A stored `Game` is abstracted to its pair
of player identities (playerA, playerB), all a claim needs. -/
structure ServiceState where
  queue : Option String
  games : List (String × (String × String))
  usersToGame : List (String × String)
deriving DecidableEq

/-- Source `GameService.createGame(userOne, userTwo)`: build the new `Game`
keyed by its id, register both identities; the socket room joins, status
writes and the INIT transition are outside this state. -/
def GameService.createGame (a b : String) (st : ServiceState) : ServiceState :=
  { st with
    games := mapSet (Game.id a b) (a, b) st.games
    usersToGame := mapSet b (Game.id a b) (mapSet a (Game.id a b) st.usersToGame) }

/-- Source `GameService.queueUser(client)`: no-op when the slot already holds
this same identity; store the identity when the slot is empty; otherwise take
the waiting identity as opponent, clear the slot and create the game. -/
def GameService.queueUser (client : String) (st : ServiceState) : ServiceState :=
  if st.queue = some client then st
  else
    match st.queue with
    | none => { st with queue := some client }
    | some opponent => GameService.createGame opponent client { st with queue := none }

/-- Source `GameService.deQueueUser(intraUserName)`. -/
def GameService.deQueueUser (intraUserName : String) (st : ServiceState) : ServiceState :=
  if st.queue = some intraUserName then { st with queue := none } else st

/-- Client connection status from `SocketData` in the gateway source. -/
inductive ClientStatus where
  | IDLE
  | GAME
  | QUEUE
  | OFFLINE
deriving DecidableEq

/-- Source `GameWebsocketGateway.queue` handler: silently ignore the request
unless the client status is IDLE; otherwise mark the client QUEUE and call
`GameService.queueUser`.  The third component is the error surfaced to the
caller: the handler body contains no `throw`, so it is always `none`. -/
def GameWebsocketGateway.queue (status : ClientStatus) (client : String)
    (st : ServiceState) : ClientStatus × ServiceState × Option String :=
  if status ≠ ClientStatus.IDLE then (status, st, none)
  else (ClientStatus.QUEUE, GameService.queueUser client st, none)

/-- Concrete test dimensions: court 1600 x 800, paddles 20 x 160, ball side
20 (so `Ball.offset = 10`, `Paddle.xOffset = 10`, `Paddle.yOffset = 80`). -/
def testDims : GameDim :=
  { courtWidth := 1600, courtHeight := 800, paddleWidth := 20
    paddleHeight := 160, ballSideLength := 20 }

/-- Concrete test dimensions with a court wide enough (4000) that the
`exit()` guard abscissa 1800 lies strictly inside the court. -/
def bigDims : GameDim :=
  { courtWidth := 4000, courtHeight := 800, paddleWidth := 20
    paddleHeight := 160, ballSideLength := 20 }

/-- Unit direction from the Pythagorean triple (9471, 4600, 10529), heading
up-left; its x-component 9471/10529 ≈ 0.8995 lies strictly between 0.2 and
0.9, so the source generator can emit it. -/
def cycDir : Position := ⟨-9471 / 10529, -4600 / 10529⟩

/-- A quiescent mid-rally state: given ball position, direction and
`passedPaddleLine` flag; paddles at their start positions and idle, score
0-0, status PLAY, random oracle constantly `cycDir`. -/
def baseState (d : GameDim) (pos dir : Position) (flag : Bool) : GameState :=
  { ballPos := pos
    ballDir := dir
    passedPaddleLine := flag
    paddleAPos := paddleAStart d
    paddleBPos := paddleBStart d
    movA := GameMovement.NONE
    movB := GameMovement.NONE
    scoreA := 0
    scoreB := 0
    status := GameStatus.PLAY
    lastUpdateTime := none
    events := []
    rng := fun _ => cycDir }

theorem mapGet_mapSet_self {α : Type} (k : String) (v : α) (l : List (String × α)) :
    mapGet k (mapSet k v l) = some v := by
  induction l with
  | nil => simp [mapGet, mapSet]
  | cons hd tl ih =>
    obtain ⟨k1, v1⟩ := hd
    by_cases h : k1 = k
    · simp [mapGet, mapSet, h]
    · simp [mapGet, mapSet, h, ih]

theorem mapGet_mapSet_ne {α : Type} (k k' : String) (v : α) (l : List (String × α))
    (h : k' ≠ k) : mapGet k' (mapSet k v l) = mapGet k' l := by
  induction l with
  | nil => simp [mapGet, mapSet, Ne.symm h]
  | cons hd tl ih =>
    obtain ⟨k1, v1⟩ := hd
    by_cases h1 : k1 = k
    · subst h1
      simp [mapGet, mapSet, Ne.symm h]
    · simp [mapGet, mapSet, h1, ih]

theorem length_mapSet_of_not_mem {α : Type} (k : String) (v : α) (l : List (String × α))
    (h : mapGet k l = none) : (mapSet k v l).length = l.length + 1 := by
  induction l with
  | nil => simp [mapSet]
  | cons hd tl ih =>
    obtain ⟨k1, v1⟩ := hd
    by_cases h1 : k1 = k
    · simp [mapGet, h1] at h
    · simp only [mapGet, h1, if_false] at h
      simp [mapSet, h1, ih h]

/-- C6: from an empty queue slot, `enqueue(A)` then `enqueue(B)` with A ≠ B
creates exactly one new Match, keyed `Game.id A B` and holding the pair
(A, B), leaves every other key of the `games` map unchanged, and empties the
queue slot; while `enqueue(A)` then `enqueue(A)` again leaves the slot
holding A and creates no Match. -/
theorem C6_queue_pairing_and_idempotence (A B : String) (st : ServiceState)
    (hAB : A ≠ B) (hq : st.queue = none) :
    (GameService.queueUser B (GameService.queueUser A st)).queue = none ∧
    mapGet (Game.id A B) (GameService.queueUser B (GameService.queueUser A st)).games
      = some (A, B) ∧
    (∀ k, k ≠ Game.id A B →
      mapGet k (GameService.queueUser B (GameService.queueUser A st)).games
        = mapGet k st.games) ∧
    (mapGet (Game.id A B) st.games = none →
      (GameService.queueUser B (GameService.queueUser A st)).games.length
        = st.games.length + 1) ∧
    (GameService.queueUser A (GameService.queueUser A st)).queue = some A ∧
    (GameService.queueUser A (GameService.queueUser A st)).games = st.games := by
  have h1 : GameService.queueUser A st = { st with queue := some A } := by
    unfold GameService.queueUser
    rw [hq]
    simp
  have h2 : GameService.queueUser B { st with queue := some A }
      = GameService.createGame A B { st with queue := none } := by
    unfold GameService.queueUser
    simp [fun h : A = B => hAB h]
  have h3 : GameService.queueUser A { st with queue := some A }
      = { st with queue := some A } := by
    unfold GameService.queueUser
    simp
  refine ⟨?_, ?_, ?_, ?_, ?_, ?_⟩
  · rw [h1, h2]; rfl
  · rw [h1, h2]
    exact mapGet_mapSet_self _ _ _
  · intro k hk
    rw [h1, h2]
    exact mapGet_mapSet_ne _ _ _ _ hk
  · intro hnone
    rw [h1, h2]
    exact length_mapSet_of_not_mem _ _ _ hnone
  · rw [h1, h3]
  · rw [h1, h3]

/-- C6 witness: the pairing/idempotence theorem applied to identities "a",
"b" and the empty service state. -/
theorem C6_queue_pairing_and_idempotence_witness :
    ("a" : String) ≠ "b" ∧
    (ServiceState.mk none [] []).queue = none ∧
    ((GameService.queueUser "b" (GameService.queueUser "a" (ServiceState.mk none [] []))).queue
        = none ∧
      mapGet (Game.id "a" "b")
        (GameService.queueUser "b" (GameService.queueUser "a" (ServiceState.mk none [] []))).games
        = some ("a", "b") ∧
      (∀ k, k ≠ Game.id "a" "b" →
        mapGet k
          (GameService.queueUser "b" (GameService.queueUser "a" (ServiceState.mk none [] []))).games
          = mapGet k (ServiceState.mk none [] []).games) ∧
      (mapGet (Game.id "a" "b") (ServiceState.mk none [] []).games = none →
        (GameService.queueUser "b" (GameService.queueUser "a" (ServiceState.mk none [] []))).games.length
          = (ServiceState.mk none [] []).games.length + 1) ∧
      (GameService.queueUser "a" (GameService.queueUser "a" (ServiceState.mk none [] []))).queue
        = some "a" ∧
      (GameService.queueUser "a" (GameService.queueUser "a" (ServiceState.mk none [] []))).games
        = (ServiceState.mk none [] []).games) :=
  ⟨by decide, rfl, C6_queue_pairing_and_idempotence "a" "b" _ (by decide) rfl⟩

/-- Service state with identity "a" registered to an active Match "ab"
(players "a" and "b") and an empty queue slot. -/
def inMatchState : ServiceState :=
  { queue := none
    games := [("ab", ("a", "b"))]
    usersToGame := [("a", "ab"), ("b", "ab")] }

/-- C7 counterexample: a `queue` request from identity "a", which is
registered to the active Match "ab" (so its client status is GAME), is
rejected before pairing and changes nothing — but the error channel of the
handler is `none`: no "already in a match" error is surfaced to the caller,
the request is silently ignored, contradicting the claim that the rejection
is surfaced as an error. -/
theorem C7_counterexample :
    GameWebsocketGateway.queue ClientStatus.GAME "a" inMatchState
      = (ClientStatus.GAME, inMatchState, none) ∧
    mapGet "a" inMatchState.usersToGame = some "ab" := by
  constructor
  · unfold GameWebsocketGateway.queue
    simp
  · unfold inMatchState mapGet
    simp

/-- C7 amended: a `queue()` request from a client whose status is not IDLE
(in particular one in an active Match, whose status is GAME) is rejected
before Queue pairing proceeds and leaves the queue slot and the set of
Matches unchanged, but the rejection is silent — the handler surfaces no
error to the caller. -/
theorem C7_queue_rejected_silently (status : ClientStatus) (client : String)
    (st : ServiceState) (h : status ≠ ClientStatus.IDLE) :
    GameWebsocketGateway.queue status client st = (status, st, none) := by
  unfold GameWebsocketGateway.queue
  simp [h]

/-- C7 witness: the silent-rejection theorem applied to a GAME-status client. -/
theorem C7_queue_rejected_silently_witness :
    ClientStatus.GAME ≠ ClientStatus.IDLE ∧
    GameWebsocketGateway.queue ClientStatus.GAME "b" inMatchState
      = (ClientStatus.GAME, inMatchState, none) :=
  ⟨by decide, C7_queue_rejected_silently ClientStatus.GAME "b" inMatchState (by decide)⟩

/-- C8: a Match's id is the concatenation of the two players' identities
(`Game.id`), which is not injective — the distinct pairs ("ab", "c") and
("a", "bc") give the same id "abc" — so the second of two Matches created
from those pairs overwrites the first in the `games` registry: after both
`createGame` calls the registry holds a single entry, keyed "abc", holding
the second pair. -/
theorem C8_game_id_not_injective :
    Game.id "ab" "c" = Game.id "a" "bc" ∧
    ("ab", "c") ≠ ("a", "bc") ∧
    (GameService.createGame "a" "bc"
        (GameService.createGame "ab" "c" (ServiceState.mk none [] []))).games
      = [("abc", ("a", "bc"))] ∧
    mapGet (Game.id "ab" "c")
        (GameService.createGame "a" "bc"
          (GameService.createGame "ab" "c" (ServiceState.mk none [] []))).games
      = some ("a", "bc") := by
  refine ⟨rfl, by decide, ?_, ?_⟩ <;>
    simp [GameService.createGame, Game.id, mapSet, mapGet]

/-- C5: on a scoring event `Game.score` increments exactly the scorer's
score by 1, resets both paddles to their start positions and the ball to its
start position with a fresh direction and cleared `passedPaddleLine`, and
transitions to END exactly when the scorer's new score reaches `maxScore`,
else to BREAK; in particular at score 10-4 the next point of the leading
player transitions directly to END (no BREAK broadcast), with the END
broadcast's winner equal to the leading player. -/
theorem C5_score_resets_and_transitions (d : GameDim) (side : Side) (s : GameState) :
    ((Game.score d side s).scoreA
        = s.scoreA + (if side = Side.A then 1 else 0)) ∧
    ((Game.score d side s).scoreB
        = s.scoreB + (if side = Side.B then 1 else 0)) ∧
    (Game.score d side s).paddleAPos = paddleAStart d ∧
    (Game.score d side s).paddleBPos = paddleBStart d ∧
    (Game.score d side s).ballPos = ballStartPos d ∧
    (Game.score d side s).ballDir = s.rng 0 ∧
    (Game.score d side s).passedPaddleLine = false ∧
    (Game.score d side s).status
      = (if maxScore ≤ sideScore side s + 1 then GameStatus.END else GameStatus.BREAK) ∧
    (s.scoreA = 10 ∧ s.scoreB = 4 ∧ side = Side.A →
      (Game.score d side s).status = GameStatus.END ∧
      (Game.score d side s).events
        = s.events ++ [GEvent.statusEnd Side.A 11 4, GEvent.gameEndInternal]) := by
  cases side with
  | A =>
    refine ⟨?_, ?_, ?_, ?_, ?_, ?_, ?_, ?_, ?_⟩ <;>
      simp only [Game.score, Game.setStatus, Game.winner, sideScore, maxScore] <;>
      split_ifs <;>
      simp_all <;>
      omega
  | B =>
    refine ⟨?_, ?_, ?_, ?_, ?_, ?_, ?_, ?_, ?_⟩ <;>
      simp only [Game.score, Game.setStatus, Game.winner, sideScore, maxScore] <;>
      split_ifs <;>
      simp_all

/-- C5 witness: the scoring theorem applied to a PLAY state at score 10-4
with player A scoring, showing the direct transition to END with winner A. -/
theorem C5_score_resets_and_transitions_witness :
    ({ baseState testDims (ballStartPos testDims) cycDir false with
        scoreA := 10, scoreB := 4 } : GameState).scoreA = 10 ∧
    (Game.score testDims Side.A
        { baseState testDims (ballStartPos testDims) cycDir false with
          scoreA := 10, scoreB := 4 }).status = GameStatus.END ∧
    (Game.score testDims Side.A
        { baseState testDims (ballStartPos testDims) cycDir false with
          scoreA := 10, scoreB := 4 }).events
      = [GEvent.statusEnd Side.A 11 4, GEvent.gameEndInternal] := by
  have h := C5_score_resets_and_transitions testDims Side.A
    { baseState testDims (ballStartPos testDims) cycDir false with scoreA := 10, scoreB := 4 }
  have hsc := h.2.2.2.2.2.2.2.2 ⟨rfl, rfl, rfl⟩
  exact ⟨rfl, hsc.1, by rw [hsc.2]; rfl⟩

@[simp]
theorem paddlePos_setPaddlePos (side : Side) (p : Position) (s : GameState) :
    paddlePos side (setPaddlePos side p s) = p := by
  cases side <;> rfl

/-- C4 counterexample: a paddle whose rectangle is fully inside the court
(player A's paddle at its start position, rectangle spanning y 320..480 in an
800-high court) moves UP with `deltaTime = 350` at paddle speed 1000; the
resolved position is y = 50, whose derived rectangle protrudes above the
court (`topY = -30 < 0`): `Paddle.update` does not keep the rectangle inside
the court's bounds, refuting the claimed invariant. -/
theorem C4_counterexample :
    (Paddle.update testDims 1000 Side.A 350
        { baseState testDims ⟨790, 390⟩ ⟨4 / 5, 3 / 5⟩ false with
          movA := GameMovement.UP }).paddleAPos = ⟨10, 50⟩ ∧
    (Paddle.getRect testDims ⟨10, 50⟩).topY < 0 ∧
    0 ≤ (Paddle.getRect testDims (paddleAStart testDims)).topY ∧
    (Paddle.getRect testDims (paddleAStart testDims)).botY ≤ testDims.courtHeight := by
  refine ⟨?_, ?_, ?_, ?_⟩ <;>
    norm_num [Paddle.update, Paddle.setPosition, Paddle.getRect,
      getRectFromOffsetAndPos, paddlePos, paddleMovement, setPaddlePos,
      paddleYOffset, paddleXOffset, paddleAStart, paddleBStart, baseState,
      testDims] <;>
    rfl

/-- C4 amended: the clamping in the `Paddle.position` setter tests the
paddle's PRE-move rectangle, not the new one: while the ball has not passed
the paddle line, an update with nonzero movement sets the new center to
`yOffset` when the pre-move rectangle protrudes above the court, to
`courtHeight - yOffset` when it protrudes below, and otherwise applies the
displacement `ySign * (speed / 1000) * deltaTime` unclamped — so a single
update can move the rectangle outside the court, and it is only the NEXT
update that snaps it back. -/
theorem C4_paddle_clamp_is_premove (d : GameDim) (speedPaddle : ℚ) (side : Side)
    (deltaTime : ℚ) (s : GameState)
    (hm : paddleMovement side s ≠ GameMovement.NONE)
    (hp : s.passedPaddleLine = false) :
    paddlePos side (Paddle.update d speedPaddle side deltaTime s)
      = ⟨(paddlePos side s).x,
          if (Paddle.getRect d (paddlePos side s)).topY < 0 then paddleYOffset d
          else if d.courtHeight < (Paddle.getRect d (paddlePos side s)).botY then
            d.courtHeight - paddleYOffset d
          else (paddlePos side s).y +
            (if paddleMovement side s = GameMovement.UP then (-1 : ℚ) else 1) *
              (speedPaddle / 1000) * deltaTime⟩ := by
  unfold Paddle.update Paddle.setPosition
  rw [if_neg hm]
  simp only [hp, Bool.false_eq_true, not_false_eq_true, if_true, if_pos]
  split_ifs <;> simp_all

/-- C4 witness: the pre-move clamp characterization applied to the concrete
out-of-bounds move of the counterexample's shape (movement UP, in-bounds
pre-move rectangle, large delta). -/
theorem C4_paddle_clamp_is_premove_witness :
    paddleMovement Side.A
        ({ baseState testDims ⟨790, 390⟩ ⟨4 / 5, 3 / 5⟩ false with
          movA := GameMovement.UP } : GameState) ≠ GameMovement.NONE ∧
    ({ baseState testDims ⟨790, 390⟩ ⟨4 / 5, 3 / 5⟩ false with
        movA := GameMovement.UP } : GameState).passedPaddleLine = false ∧
    paddlePos Side.A (Paddle.update testDims 1000 Side.A 350
        { baseState testDims ⟨790, 390⟩ ⟨4 / 5, 3 / 5⟩ false with
          movA := GameMovement.UP }) = ⟨10, 50⟩ := by
  refine ⟨by simp [paddleMovement, baseState], rfl, ?_⟩
  have h := C4_paddle_clamp_is_premove testDims 1000 Side.A 350
    { baseState testDims ⟨790, 390⟩ ⟨4 / 5, 3 / 5⟩ false with movA := GameMovement.UP }
    (by simp [paddleMovement, baseState]) rfl
  rw [h]
  norm_num [Paddle.getRect, getRectFromOffsetAndPos, paddlePos, paddleMovement,
    paddleYOffset, paddleXOffset, paddleAStart, baseState, testDims]

/-- Source `Game.updateMovement(intraUserName, move)`: set the identified
player's paddle movement intent. -/
def Game.updateMovement (side : Side) (m : GameMovement) (s : GameState) : GameState :=
  match side with
  | Side.A => { s with movA := m }
  | Side.B => { s with movB := m }

/-- An operation on a paddle: a movement-intent write (from a transport
`movement` event) or a per-tick `Paddle.update`. -/
inductive PaddleOp where
  | setMovement (side : Side) (m : GameMovement)
  | update (side : Side) (deltaTime : ℚ)

/-- Apply one paddle operation to the game state. -/
def applyPaddleOp (d : GameDim) (speedPaddle : ℚ) (s : GameState) :
    PaddleOp → GameState
  | PaddleOp.setMovement side m => Game.updateMovement side m s
  | PaddleOp.update side deltaTime => Paddle.update d speedPaddle side deltaTime s

theorem paddleX_setPaddlePos (side side' : Side) (p : Position) (s : GameState)
    (h : p.x = (paddlePos side' s).x) :
    (paddlePos side (setPaddlePos side' p s)).x = (paddlePos side s).x := by
  cases side <;> cases side' <;> simp_all [paddlePos, setPaddlePos]

set_option maxHeartbeats 1600000 in
theorem paddleX_setPosition (d : GameDim) (side' : Side) (p0 : Position)
    (s : GameState) (side : Side) (hx : p0.x = (paddlePos side' s).x) :
    (paddlePos side (Paddle.setPosition d side' p0 s)).x = (paddlePos side s).x := by
  have hball2 : ∀ (b : Position) (si : Side),
      (paddlePos si { s with ballPos := b }).x = (paddlePos si s).x := by
    intro b si; cases si <;> rfl
  simp only [Paddle.setPosition]
  split_ifs <;>
    first
      | rfl
      | (rw [paddleX_setPaddlePos] <;> simp_all)

theorem paddleX_constant_update (d : GameDim) (speedPaddle : ℚ) (side' : Side)
    (deltaTime : ℚ) (s : GameState) (side : Side) :
    (paddlePos side (Paddle.update d speedPaddle side' deltaTime s)).x
      = (paddlePos side s).x := by
  simp only [Paddle.update]
  split_ifs <;>
    first
      | rfl
      | exact paddleX_setPosition d side' _ s side rfl

/-- C10: a paddle's horizontal coordinate never changes: over any sequence
of movement-intent writes and `Paddle.update` calls, each paddle's
`position.x` stays equal to its value at the start of the sequence. -/
theorem C10_paddle_x_never_changes (d : GameDim) (speedPaddle : ℚ)
    (ops : List PaddleOp) (s : GameState) (side : Side) :
    (paddlePos side (ops.foldl (applyPaddleOp d speedPaddle) s)).x
      = (paddlePos side s).x := by
  induction ops generalizing s with
  | nil => rfl
  | cons op rest ih =>
    rw [List.foldl_cons, ih]
    cases op with
    | setMovement side' m =>
      cases side <;> cases side' <;>
        simp [applyPaddleOp, Game.updateMovement, paddlePos]
    | update side' deltaTime =>
      exact paddleX_constant_update d speedPaddle side' deltaTime s side

/-- C1 counterexample: a legal PLAY state (ball at (600, 100), unit direction
(-4/5, 3/5), `passedPaddleLine` false, paddles at their start positions) and
one tick of `Ball.update` (ball speed 1000, deltaTime 740, i.e. swept
distance 740): the path misses the facing paddle (the paddle-plane
intersection y ≈ 527.5 is outside the paddle's span 310..490), so the move
commits at (8, 544), whose rectangle touches the left wall — and player B's
score increments by 1 even though `passedPaddleLine` was false for the whole
tick (the commit scored and returned before the flag update could run), and
even though the ball has not fully crossed the wall (its right edge is still
at x = 18 > 0).  This refutes both "only while `passedPaddleLine` is true"
and "fully crosses". -/
theorem C1_counterexample :
    (baseState testDims ⟨600, 100⟩ ⟨-4 / 5, 3 / 5⟩ false).passedPaddleLine = false ∧
    (Ball.getRect testDims
        (getNextPositionWithoutCollision ⟨600, 100⟩ ⟨-4 / 5, 3 / 5⟩ 740)).leftX = -2 ∧
    (Ball.getRect testDims
        (getNextPositionWithoutCollision ⟨600, 100⟩ ⟨-4 / 5, 3 / 5⟩ 740)).rightX = 18 ∧
    Ball.update testDims 1000 1 740 (baseState testDims ⟨600, 100⟩ ⟨-4 / 5, 3 / 5⟩ false)
      = MoveRes.ok
          { ballPos := ⟨790, 390⟩
            ballDir := cycDir
            passedPaddleLine := false
            paddleAPos := ⟨10, 400⟩
            paddleBPos := ⟨1590, 400⟩
            movA := GameMovement.NONE
            movB := GameMovement.NONE
            scoreA := 0
            scoreB := 1
            status := GameStatus.BREAK
            lastUpdateTime := none
            events := [GEvent.statusBreak 0 1]
            rng := fun _ => cycDir } := by
  refine ⟨rfl, ?_, ?_, ?_⟩ <;>
    norm_num [Ball.update, Ball.move, Ball.moveStep, Ball.setPosition,
      Ball.collideWithPaddles, Ball.baseCollidePaddles, doesBallCollideWithPaddle,
      doesBallCollideWithTopBotWalls, doesBallCollideWithLeftRightWalls,
      doesBallCollideWithLeftWall, doesBallCollideWithRightWall,
      getNextPositionWithoutCollision, getRectFromOffsetAndPos, Ball.getRect,
      Paddle.getRect, Ball.facingSide, Ball.xPaddle, Ball.yWall, getIntersectionX,
      getIntersectionY, Game.score, Game.setStatus, Game.winner, sideScore,
      maxScore, baseState, testDims, ballOffset, paddleXOffset, paddleYOffset,
      ballStartPos, paddleAStart, paddleBStart, paddlePos, cycDir,
      distanceBetweenPositions]

/-- C1 amended: whenever the `Ball.position` setter commits a position whose
rectangle reaches a side wall (left edge at or past the left wall, or right
edge at or past the right wall), the wall's opposing player — B for the left
wall, A otherwise — is credited exactly 1, and otherwise no score changes;
this holds for EVERY state, in particular regardless of `passedPaddleLine`
(which only gates the paddle-plane interception test inside `Ball.move`, not
scoring). -/
theorem C1_score_iff_side_wall_commit (d : GameDim) (p : Position) (s : GameState) :
    (doesBallCollideWithLeftRightWalls d (Ball.getRect d p) →
      (doesBallCollideWithLeftWall (Ball.getRect d p) →
        (Ball.setPosition d p s).scoreB = s.scoreB + 1 ∧
        (Ball.setPosition d p s).scoreA = s.scoreA) ∧
      (¬ doesBallCollideWithLeftWall (Ball.getRect d p) →
        (Ball.setPosition d p s).scoreA = s.scoreA + 1 ∧
        (Ball.setPosition d p s).scoreB = s.scoreB)) ∧
    (¬ doesBallCollideWithLeftRightWalls d (Ball.getRect d p) →
      (Ball.setPosition d p s).scoreA = s.scoreA ∧
      (Ball.setPosition d p s).scoreB = s.scoreB) := by
  refine ⟨fun hw => ⟨fun hl => ?_, fun hl => ?_⟩, fun hw => ?_⟩ <;>
    simp only [Ball.setPosition, Game.score, Game.setStatus, sideScore] <;>
    split_ifs <;> simp_all

/-- C1 witness: the scoring characterization applied to the committed
position (8, 544) of the counterexample tick, whose rectangle touches the
left wall, in the flag-false state: player B is credited 1. -/
theorem C1_score_iff_side_wall_commit_witness :
    doesBallCollideWithLeftRightWalls testDims (Ball.getRect testDims ⟨8, 544⟩) ∧
    doesBallCollideWithLeftWall (Ball.getRect testDims ⟨8, 544⟩) ∧
    (Ball.setPosition testDims ⟨8, 544⟩
        (baseState testDims ⟨600, 100⟩ ⟨-4 / 5, 3 / 5⟩ false)).scoreB
      = (baseState testDims ⟨600, 100⟩ ⟨-4 / 5, 3 / 5⟩ false).scoreB + 1 := by
  have hw : doesBallCollideWithLeftRightWalls testDims (Ball.getRect testDims ⟨8, 544⟩) := by
    norm_num [doesBallCollideWithLeftRightWalls, doesBallCollideWithLeftWall,
      Ball.getRect, getRectFromOffsetAndPos, ballOffset, testDims]
  have hl : doesBallCollideWithLeftWall (Ball.getRect testDims ⟨8, 544⟩) := by
    norm_num [doesBallCollideWithLeftWall, Ball.getRect, getRectFromOffsetAndPos,
      ballOffset, testDims]
  exact ⟨hw, hl,
    ((C1_score_iff_side_wall_commit testDims ⟨8, 544⟩
      (baseState testDims ⟨600, 100⟩ ⟨-4 / 5, 3 / 5⟩ false)).1 hw |>.1 hl).1⟩

/-- C2 counterexample: ball at (400, 100) with unit direction (4/5, -3/5),
swept distance 200 for the tick.  The ball hits the top wall; the exact
intersection point is (520, 10), reached after traveling 150.  The claim
says the recursion continues with the leftover distance
200 - 150 = 50 — but `Ball.move` recurses with
`distanceBetweenPositions(intersectionPos, position)` = 150, the distance
already traveled, which is not the leftover distance. -/
theorem C2_counterexample :
    Ball.moveStep testDims 200 (baseState testDims ⟨400, 100⟩ ⟨4 / 5, -3 / 5⟩ false)
      = StepRes.recurse
          { baseState testDims ⟨400, 100⟩ ⟨4 / 5, -3 / 5⟩ false with
            ballPos := ⟨520, 10⟩, ballDir := ⟨4 / 5, 3 / 5⟩ } 150 ∧
    (150 : ℚ) ≠ 200 - 150 := by
  have hns : Nat.sqrt 22500 = 150 := by
    rw [show (22500 : ℕ) = 150 * 150 by norm_num, Nat.sqrt_eq]
  refine ⟨?_, by norm_num⟩
  norm_num [Ball.moveStep, Ball.setPosition, Ball.collideWithPaddles,
    Ball.baseCollidePaddles, doesBallCollideWithPaddle, doesBallCollideWithTopBotWalls,
    doesBallCollideWithLeftRightWalls, doesBallCollideWithLeftWall,
    doesBallCollideWithRightWall, getNextPositionWithoutCollision,
    getRectFromOffsetAndPos, Ball.getRect, Paddle.getRect, Ball.facingSide,
    Ball.xPaddle, Ball.yWall, getIntersectionX, getIntersectionY, Game.score,
    Game.setStatus, Game.winner, sideScore, maxScore, baseState, testDims,
    ballOffset, paddleXOffset, paddleYOffset, ballStartPos, paddleAStart,
    paddleBStart, paddlePos, cycDir, distanceBetweenPositions, hns]

/-- C2 amended: after a pure top/bottom-wall collision is resolved to the
exact intersection point, the recursion continues with the distance from the
pre-move position to the intersection point — the distance ALREADY traveled
(equal, for a unit direction, to the absolute line parameter
`(yWall - y) / dir.y`) — not with the total swept distance minus that
distance. -/
theorem C2_recursion_continues_with_traveled_distance (d : GameDim) (dist : ℚ)
    (s : GameState)
    (hu : s.ballDir.x ^ 2 + s.ballDir.y ^ 2 = 1)
    (hdy : s.ballDir.y ≠ 0)
    (hnp : ¬ Ball.collideWithPaddles d dist
      (getRectFromOffsetAndPos (getNextPositionWithoutCollision s.ballPos s.ballDir dist)
        (ballOffset d) (ballOffset d)) s)
    (htb : doesBallCollideWithTopBotWalls d
      (getRectFromOffsetAndPos (getNextPositionWithoutCollision s.ballPos s.ballDir dist)
        (ballOffset d) (ballOffset d)))
    (hg : (Ball.setPosition d
        ⟨getIntersectionY s.ballPos s.ballDir (Ball.yWall d s), Ball.yWall d s⟩
        { s with ballDir := ⟨s.ballDir.x, -s.ballDir.y⟩ }).ballPos.x ≤ 1800) :
    Ball.moveStep d dist s
      = StepRes.recurse
          (Ball.setPosition d
            ⟨getIntersectionY s.ballPos s.ballDir (Ball.yWall d s), Ball.yWall d s⟩
            { s with ballDir := ⟨s.ballDir.x, -s.ballDir.y⟩ })
          |(Ball.yWall d s - s.ballPos.y) / s.ballDir.y| := by
  have key : (s.ballPos.x - getIntersectionY s.ballPos s.ballDir (Ball.yWall d s)) ^ 2 +
      (s.ballPos.y - Ball.yWall d s) ^ 2
      = ((Ball.yWall d s - s.ballPos.y) / s.ballDir.y) *
          ((Ball.yWall d s - s.ballPos.y) / s.ballDir.y) := by
    have hgY : s.ballPos.x - getIntersectionY s.ballPos s.ballDir (Ball.yWall d s)
        = -(((Ball.yWall d s - s.ballPos.y) / s.ballDir.y) * s.ballDir.x) := by
      simp only [getIntersectionY]; ring
    have hyW : s.ballPos.y - Ball.yWall d s
        = -(((Ball.yWall d s - s.ballPos.y) / s.ballDir.y) * s.ballDir.y) := by
      rw [div_mul_cancel₀ _ hdy]; ring
    rw [hgY, hyW]
    linear_combination (((Ball.yWall d s - s.ballPos.y) / s.ballDir.y) ^ 2) * hu
  have habs : distanceBetweenPositions
      ⟨getIntersectionY s.ballPos s.ballDir (Ball.yWall d s), Ball.yWall d s⟩ s.ballPos
      = |(Ball.yWall d s - s.ballPos.y) / s.ballDir.y| := by
    simp only [distanceBetweenPositions]
    rw [key, Rat.sqrt_eq]
  simp only [Ball.moveStep]
  rw [if_neg (fun h => h.2 htb), if_pos htb, if_neg hnp, if_neg (not_lt.2 hg), habs]

/-- C2 witness: the traveled-distance theorem applied to the counterexample
configuration (top-wall bounce at (520, 10), traveled distance 150). -/
theorem C2_recursion_continues_with_traveled_distance_witness :
    ((baseState testDims ⟨400, 100⟩ ⟨4 / 5, -3 / 5⟩ false).ballDir.x ^ 2 +
        (baseState testDims ⟨400, 100⟩ ⟨4 / 5, -3 / 5⟩ false).ballDir.y ^ 2 = 1) ∧
    Ball.moveStep testDims 200 (baseState testDims ⟨400, 100⟩ ⟨4 / 5, -3 / 5⟩ false)
      = StepRes.recurse
          (Ball.setPosition testDims
            ⟨getIntersectionY (baseState testDims ⟨400, 100⟩ ⟨4 / 5, -3 / 5⟩ false).ballPos
                (baseState testDims ⟨400, 100⟩ ⟨4 / 5, -3 / 5⟩ false).ballDir
                (Ball.yWall testDims (baseState testDims ⟨400, 100⟩ ⟨4 / 5, -3 / 5⟩ false)),
              Ball.yWall testDims (baseState testDims ⟨400, 100⟩ ⟨4 / 5, -3 / 5⟩ false)⟩
            { baseState testDims ⟨400, 100⟩ ⟨4 / 5, -3 / 5⟩ false with
              ballDir :=
                ⟨(baseState testDims ⟨400, 100⟩ ⟨4 / 5, -3 / 5⟩ false).ballDir.x,
                  -(baseState testDims ⟨400, 100⟩ ⟨4 / 5, -3 / 5⟩ false).ballDir.y⟩ })
          |(Ball.yWall testDims (baseState testDims ⟨400, 100⟩ ⟨4 / 5, -3 / 5⟩ false) -
                (baseState testDims ⟨400, 100⟩ ⟨4 / 5, -3 / 5⟩ false).ballPos.y) /
              (baseState testDims ⟨400, 100⟩ ⟨4 / 5, -3 / 5⟩ false).ballDir.y| := by
  constructor
  · norm_num [baseState]
  · exact C2_recursion_continues_with_traveled_distance testDims 200
      (baseState testDims ⟨400, 100⟩ ⟨4 / 5, -3 / 5⟩ false)
      (by norm_num [baseState])
      (by norm_num [baseState])
      (by
        norm_num [Ball.collideWithPaddles, Ball.baseCollidePaddles,
          doesBallCollideWithPaddle, doesBallCollideWithTopBotWalls,
          doesBallCollideWithLeftRightWalls, doesBallCollideWithLeftWall,
          doesBallCollideWithRightWall, getNextPositionWithoutCollision,
          getRectFromOffsetAndPos, Paddle.getRect, Ball.facingSide, Ball.xPaddle,
          getIntersectionX, baseState, testDims, ballOffset, paddleXOffset,
          paddleYOffset, paddleAStart, paddleBStart, paddlePos])
      (by
        norm_num [doesBallCollideWithTopBotWalls, getNextPositionWithoutCollision,
          getRectFromOffsetAndPos, baseState, testDims, ballOffset])
      (by
        norm_num [Ball.setPosition, Ball.yWall, getIntersectionY, baseState,
          testDims, ballOffset, Ball.getRect, getRectFromOffsetAndPos,
          doesBallCollideWithLeftRightWalls, doesBallCollideWithLeftWall,
          doesBallCollideWithRightWall, Game.score, Game.setStatus, sideScore,
          maxScore, ballStartPos, paddleAStart, paddleBStart, Game.winner])

/-- State carried by a `StepRes`. -/
def StepRes.state : StepRes → GameState
  | StepRes.done s => s
  | StepRes.recurse s _ => s
  | StepRes.fatal s => s

/-- Direction invariant: the ball's direction vector has Euclidean norm 1,
and so does every direction the random oracle will ever emit (the source
generator only produces `(cos heading, sin heading)` points of the unit
circle). -/
def dirOk (s : GameState) : Prop :=
  s.ballDir.x ^ 2 + s.ballDir.y ^ 2 = 1 ∧
  ∀ i, (s.rng i).x ^ 2 + (s.rng i).y ^ 2 = 1

theorem dirOk_setDir (s : GameState) (v : Position) (h : dirOk s)
    (hv : v.x ^ 2 + v.y ^ 2 = 1) : dirOk { s with ballDir := v } :=
  ⟨hv, h.2⟩

theorem dirOk_score (d : GameDim) (scorer : Side) (s : GameState) (h : dirOk s) :
    dirOk (Game.score d scorer s) := by
  cases scorer <;>
    simp only [Game.score, Game.setStatus] <;>
    split_ifs <;>
    exact ⟨h.2 0, fun i => h.2 (i + 1)⟩

theorem dirOk_setPosition (d : GameDim) (p : Position) (s : GameState) (h : dirOk s) :
    dirOk (Ball.setPosition d p s) := by
  simp only [Ball.setPosition]
  split_ifs <;>
    first
      | exact dirOk_score _ _ _ h
      | exact h

theorem dirOk_moveStep (d : GameDim) (dist : ℚ) (s : GameState) (h : dirOk s) :
    dirOk (StepRes.state (Ball.moveStep d dist s)) := by
  simp only [Ball.moveStep]
  split_ifs <;>
    simp only [StepRes.state] <;>
    first
      | exact dirOk_setPosition _ _ _ h
      | exact dirOk_setPosition _ _ _ (dirOk_setDir _ _ h h.1)
      | exact dirOk_setPosition _ _ _ (dirOk_setDir _ _ h
          (by simp only [neg_sq, neg_neg]; exact h.1))

/-- C9: the ball's direction vector always has Euclidean norm 1: starting
from any state whose direction and random oracle emit only unit vectors
(as the source's `(cos h, sin h)` generator does), every run of `Ball.move`
— any number of wall or paddle reflections, each of which only negates one
direction component, plus any resets — leaves the direction with norm 1, so
the ball's speed magnitude is unchanged by reflections. -/
theorem C9_direction_norm_is_unit (d : GameDim) (fuel : ℕ) (dist : ℚ)
    (s : GameState) (h : dirOk s) :
    dirOk (MoveRes.state (Ball.move d fuel dist s)) := by
  induction fuel generalizing dist s with
  | zero => exact h
  | succ n ih =>
    have hstep := dirOk_moveStep d dist s h
    simp only [Ball.move]
    cases hs : Ball.moveStep d dist s with
    | done s1 =>
      rw [hs] at hstep
      exact hstep
    | recurse s1 r =>
      rw [hs] at hstep
      exact ih r s1 hstep
    | fatal s1 =>
      rw [hs] at hstep
      exact hstep

/-- C9 witness: the unit-norm preservation theorem applied to the top-wall
bounce configuration with direction (4/5, -3/5) and the constantly-`cycDir`
oracle. -/
theorem C9_direction_norm_is_unit_witness :
    dirOk (baseState testDims ⟨400, 100⟩ ⟨4 / 5, -3 / 5⟩ false) ∧
    dirOk (MoveRes.state (Ball.move testDims 3 200
      (baseState testDims ⟨400, 100⟩ ⟨4 / 5, -3 / 5⟩ false))) := by
  have h : dirOk (baseState testDims ⟨400, 100⟩ ⟨4 / 5, -3 / 5⟩ false) := by
    constructor
    · norm_num [baseState]
    · intro i
      norm_num [baseState, cycDir]
  exact ⟨h, C9_direction_norm_is_unit testDims 3 200 _ h⟩

/-- Swept distance of the self-reproducing tick: the distance from court
center to the top-wall intersection point along `cycDir`
(19 * 10529 / 230 = 200051 / 230 ≈ 869.8). -/
def cycD : ℚ := 200051 / 230

/-- The self-reproducing family of states: ball at its start position
heading `cycDir`, `passedPaddleLine` false, paddles at their start
positions, random oracle constantly `cycDir`; movement intents, scores,
status, timestamp and events arbitrary. -/
def cycState (mA mB : GameMovement) (sA sB : ℕ) (st : GameStatus) (lu : Option ℚ)
    (ev : List GEvent) : GameState :=
  ⟨ballStartPos testDims, cycDir, false, paddleAStart testDims, paddleBStart testDims,
    mA, mB, sA, sB, st, lu, ev, fun _ => cycDir⟩

/-- Ball-relevant core of the self-reproducing states, as a predicate. -/
def ballCoreCyc (s : GameState) : Prop :=
  s.ballPos = ballStartPos testDims ∧
  s.ballDir = cycDir ∧
  s.passedPaddleLine = false ∧
  s.paddleAPos = paddleAStart testDims ∧
  s.paddleBPos = paddleBStart testDims ∧
  s.rng = fun _ => cycDir

theorem eq_cycState_of_ballCoreCyc (s : GameState) (h : ballCoreCyc s) :
    s = cycState s.movA s.movB s.scoreA s.scoreB s.status s.lastUpdateTime s.events := by
  obtain ⟨pos, dir, flag, pA, pB, mA, mB, sA, sB, st, lu, ev, rng⟩ := s
  obtain ⟨h1, h2, h3, h4, h5, h6⟩ := h
  simp only at h1 h2 h3 h4 h5 h6
  subst h1 h2 h3 h4 h5 h6
  rfl

theorem score_ballPos (d : GameDim) (scorer : Side) (s : GameState) :
    (Game.score d scorer s).ballPos = ballStartPos d := by
  cases scorer <;> simp only [Game.score, Game.setStatus] <;> split_ifs <;> rfl

theorem setPosition_scores_left (d : GameDim) (p : Position) (s : GameState)
    (hl : doesBallCollideWithLeftWall (Ball.getRect d p)) :
    Ball.setPosition d p s = Game.score d Side.B { s with ballPos := p } := by
  have hw : doesBallCollideWithLeftRightWalls d (Ball.getRect d p) := Or.inl hl
  simp only [Ball.setPosition]
  rw [if_pos hw, if_pos hl]

theorem ballCoreCyc_score (scorer : Side) (s : GameState)
    (h6 : s.rng = fun _ => cycDir) : ballCoreCyc (Game.score testDims scorer s) := by
  cases scorer <;>
    simp only [Game.score, Game.setStatus] <;>
    split_ifs <;>
    exact ⟨rfl, by rw [h6], rfl, rfl, rfl, by rw [h6]⟩

theorem cyc_step (mA mB : GameMovement) (sA sB : ℕ) (st : GameStatus) (lu : Option ℚ)
    (ev : List GEvent) :
    Ball.moveStep testDims cycD (cycState mA mB sA sB st lu ev)
      = StepRes.recurse
          (Game.score testDims Side.B
            { cycState mA mB sA sB st lu ev with
              ballDir := ⟨cycDir.x, -cycDir.y⟩, ballPos := ⟨1751 / 230, 10⟩ })
          cycD := by
  have hbp : (cycState mA mB sA sB st lu ev).ballPos = ballStartPos testDims := rfl
  have hbd : (cycState mA mB sA sB st lu ev).ballDir = cycDir := rfl
  have hfl : (cycState mA mB sA sB st lu ev).passedPaddleLine = false := rfl
  have hpa : (cycState mA mB sA sB st lu ev).paddleAPos = paddleAStart testDims := rfl
  have hpb : (cycState mA mB sA sB st lu ev).paddleBPos = paddleBStart testDims := rfl
  have hdx : ¬ (0 < cycDir.x) := by norm_num [cycDir]
  have hdy : ¬ (0 < cycDir.y) := by norm_num [cycDir]
  have h10 : ballOffset testDims = 10 := by norm_num [ballOffset, testDims]
  have hnext : getNextPositionWithoutCollision (ballStartPos testDims) cycDir cycD
      = ⟨1751 / 230, 10⟩ := by
    norm_num [getNextPositionWithoutCollision, ballStartPos, testDims, ballOffset,
      cycDir, cycD]
  have hnrect : getRectFromOffsetAndPos (⟨1751 / 230, 10⟩ : Position) 10 10
      = ⟨0, 20, -549 / 230, 4051 / 230⟩ := by
    norm_num [getRectFromOffsetAndPos]
  have hcp : ¬ Ball.collideWithPaddles testDims cycD
      (⟨0, 20, -549 / 230, 4051 / 230⟩ : Rectangle) (cycState mA mB sA sB st lu ev) := by
    norm_num [Ball.collideWithPaddles, Ball.baseCollidePaddles, doesBallCollideWithPaddle,
      doesBallCollideWithLeftRightWalls, doesBallCollideWithLeftWall,
      doesBallCollideWithRightWall, Paddle.getRect, getRectFromOffsetAndPos,
      Ball.facingSide, Ball.xPaddle, getIntersectionX, paddlePos, cycState, cycDir,
      cycD, testDims, ballOffset, paddleXOffset, paddleYOffset, ballStartPos,
      paddleAStart, paddleBStart]
  have htb : doesBallCollideWithTopBotWalls testDims
      (⟨0, 20, -549 / 230, 4051 / 230⟩ : Rectangle) := by
    norm_num [doesBallCollideWithTopBotWalls]
  have hiy : getIntersectionY (ballStartPos testDims) cycDir 10 = 1751 / 230 := by
    norm_num [getIntersectionY, ballStartPos, testDims, ballOffset, cycDir]
  have hsq : Rat.sqrt ((40020402601 : ℚ) / 52900) = 200051 / 230 := by
    rw [show ((40020402601 : ℚ) / 52900) = (200051 / 230) * (200051 / 230) by norm_num,
      Rat.sqrt_eq]
    rw [abs_of_pos (by norm_num)]
  have hdist : distanceBetweenPositions (⟨1751 / 230, 10⟩ : Position)
      (ballStartPos testDims) = cycD := by
    simp only [distanceBetweenPositions, cycD]
    rw [show ((ballStartPos testDims).x - (1751 / 230 : ℚ)) ^ 2 +
        ((ballStartPos testDims).y - (10 : ℚ)) ^ 2 = (40020402601 : ℚ) / 52900 by
      norm_num [ballStartPos, testDims, ballOffset]]
    exact hsq
  have hl : doesBallCollideWithLeftWall (Ball.getRect testDims ⟨1751 / 230, 10⟩) := by
    norm_num [doesBallCollideWithLeftWall, Ball.getRect, getRectFromOffsetAndPos,
      ballOffset, testDims]
  simp only [Ball.moveStep, Ball.facingSide, Ball.xPaddle, Ball.yWall, hbp, hbd, hfl,
    hpa, hpb, hnext, h10, hnrect, hiy]
  rw [if_neg (fun hh => hh.2 htb)]
  rw [if_neg hdx, if_neg hdy]
  rw [if_pos htb, if_neg hcp]
  rw [hiy]
  rw [setPosition_scores_left _ _ _ hl]
  rw [hdist]
  rw [if_neg (by rw [score_ballPos]; norm_num [ballStartPos, testDims, ballOffset])]

theorem cyc_move_fuelOut (n : ℕ) (s : GameState) (h : ballCoreCyc s) :
    ∃ s1, Ball.move testDims n cycD s = MoveRes.fuelOut s1 ∧ ballCoreCyc s1 := by
  induction n generalizing s with
  | zero => exact ⟨s, rfl, h⟩
  | succ k ih =>
    have hs := eq_cycState_of_ballCoreCyc s h
    have hstep := cyc_step s.movA s.movB s.scoreA s.scoreB s.status s.lastUpdateTime s.events
    rw [← hs] at hstep
    have hcore : ballCoreCyc (Game.score testDims Side.B
        { s with ballDir := ⟨cycDir.x, -cycDir.y⟩, ballPos := ⟨1751 / 230, 10⟩ }) :=
      ballCoreCyc_score Side.B _ h.2.2.2.2.2
    simp only [Ball.move, hstep]
    exact ih _ hcore

/-- C3 counterexample: on a court of width 4000, a legal PLAY state (ball at
(1500, 400), unit direction (4/5, -3/5), paddles at their start positions)
and one tick of `Ball.update` with swept distance 700: the ball bounces off
the top wall at the exact intersection point (2020, 10), and since the
committed x-coordinate 2020 exceeds 1800 the source logs a fatal error and
calls `exit()` — terminating the WHOLE process (modelled `MoveRes.fatal`),
not just the affected Match.  This refutes the claim that exceeding the
guard only terminates the affected Match and never affects the process. -/
theorem C3_counterexample :
    Ball.update bigDims 1000 1 700 (baseState bigDims ⟨1500, 400⟩ ⟨4 / 5, -3 / 5⟩ false)
      = MoveRes.fatal
          { baseState bigDims ⟨1500, 400⟩ ⟨4 / 5, -3 / 5⟩ false with
            ballPos := ⟨2020, 10⟩, ballDir := ⟨4 / 5, 3 / 5⟩ } ∧
    (1800 : ℚ) < 2020 := by
  refine ⟨?_, by norm_num⟩
  norm_num [Ball.update, Ball.move, Ball.moveStep, Ball.setPosition,
    Ball.collideWithPaddles, Ball.baseCollidePaddles, doesBallCollideWithPaddle,
    doesBallCollideWithTopBotWalls, doesBallCollideWithLeftRightWalls,
    doesBallCollideWithLeftWall, doesBallCollideWithRightWall,
    getNextPositionWithoutCollision, getRectFromOffsetAndPos, Ball.getRect,
    Paddle.getRect, Ball.facingSide, Ball.xPaddle, Ball.yWall, getIntersectionX,
    getIntersectionY, baseState, bigDims, ballOffset, paddleXOffset, paddleYOffset,
    ballStartPos, paddleAStart, paddleBStart, paddlePos, cycDir]

/-- C3 amended: `Ball.move` has NO iteration cap and need not terminate:
from every state of the `ballCoreCyc` family — a legal mid-rally
configuration with the ball at court center heading `cycDir` — a tick of
swept distance `cycD` bounces off the top wall into the left corner, scores,
resets, and recurses with exactly the same distance `cycD` into the same
ball configuration, so for EVERY fuel bound the recursion is still unfinished
(`MoveRes.fuelOut`); the source's only guard is the positional
`position.x > 1800` check, which terminates the whole process via `exit()`
(see the counterexample), not the affected Match alone. -/
theorem C3_no_iteration_cap (n : ℕ) (s : GameState) (h : ballCoreCyc s) :
    ∃ s1, Ball.move testDims n cycD s = MoveRes.fuelOut s1 :=
  (cyc_move_fuelOut n s h).imp fun _ hh => hh.1

/-- C3 witness: the no-cap theorem applied at fuel 3 to the concrete
self-reproducing state. -/
theorem C3_no_iteration_cap_witness :
    ballCoreCyc (baseState testDims (ballStartPos testDims) cycDir false) ∧
    ∃ s1, Ball.move testDims 3 cycD (baseState testDims (ballStartPos testDims) cycDir false)
      = MoveRes.fuelOut s1 :=
  ⟨⟨rfl, rfl, rfl, rfl, rfl, rfl⟩,
    C3_no_iteration_cap 3 _ ⟨rfl, rfl, rfl, rfl, rfl, rfl⟩⟩
